import Mathlib

/-!
Shallow embedding of the session-establishment and bridging core of the
webxash3d-proxy repository: the channel-ready gate and websocket signaling
loop of signaling.rs, and the UDP/data-channel bridge of bridge.rs.
Bytes are modelled as natural numbers, datagrams and channel messages as
lists of bytes, and the external webrtc library calls as oracle parameters
describing the results of its fallible operations.
-/

namespace WebxashProxy

/-! ## bridge.rs -/

/-- The constant `MAX_PACKET_SIZE` of bridge.rs (line 9): size in bytes of the
UDP receive buffer used by `forward_udp_to_webrtc`. -/
def MAX_PACKET_SIZE : Nat := 65536

/-- Model of `self.udp_socket.recv(&mut buf)` on the connected UDP socket,
where `buf` has `MAX_PACKET_SIZE` bytes: the OS copies the first
`min (length of datagram) MAX_PACKET_SIZE` bytes of the waiting datagram into
the buffer, discarding any excess, and returns that count `n`; the loop body
then reads `buf[..n]`. The returned list is exactly that slice. -/
def udpRecv (datagram : List Nat) : List Nat :=
  datagram.take MAX_PACKET_SIZE

/-- One resolution of the `tokio::select!` at the top of the loop in
`forward_udp_to_webrtc` (bridge.rs lines 88-124): either the recv future
completes (with a datagram, whose channel-send outcome when attempted is
`sendOk`, or with an error), or the shutdown-notified branch completes. A
trace of these resolutions, in order, describes one execution of the loop. -/
inductive BridgeEvent
  | recvOk (datagram : List Nat) (sendOk : Bool)
  | recvErr
  | shutdown
  deriving Repr, DecidableEq

/-- Reason the loop in `forward_udp_to_webrtc` stopped iterating, or
`stillRunning` when the event trace was exhausted with the loop still live. -/
inductive ExitReason
  | sendError
  | recvError
  | shutdownObserved
  | stillRunning
  deriving Repr, DecidableEq

/-- Observable outcome of one run of the loop in `forward_udp_to_webrtc`:
the messages written to the outbound (write) data channel in order, why the
loop stopped, and whether the loop body itself fired the shutdown signal
(the source contains no `notify` call in this function, which the embedding
reflects by recording every call made). -/
structure LoopResult where
  sent : List (List Nat)
  exit : ExitReason
  notifiedShutdown : Bool
  deriving Repr, DecidableEq

/-- The loop of `forward_udp_to_webrtc` (bridge.rs lines 84-126), run over a
trace of select resolutions. On `Ok(n) if n > 0` the slice `buf[..n]` is sent
on the write channel: a send failure logs and breaks; on `Ok(_)` (empty
packet) the loop continues; on `Err` it logs and breaks; on the shutdown
branch it breaks. No branch notifies the shutdown signal. -/
def forward_udp_to_webrtc : List BridgeEvent → LoopResult
  | [] => ⟨[], .stillRunning, false⟩
  | .recvOk d sendOk :: rest =>
    let data := udpRecv d
    if 0 < data.length then
      if sendOk then
        let r := forward_udp_to_webrtc rest
        ⟨data :: r.sent, r.exit, r.notifiedShutdown⟩
      else
        ⟨[], .sendError, false⟩
    else
      forward_udp_to_webrtc rest
  | .recvErr :: _ => ⟨[], .recvError, false⟩
  | .shutdown :: _ => ⟨[], .shutdownObserved, false⟩

/-- State of the tokio `Notify` used as the shutdown signal of a Bridge: it
stores at most one permit. -/
structure NotifyState where
  permit : Bool
  deriving Repr, DecidableEq

/-- Model of `Notify::notify_one`: a permit is stored (the store saturates at
one permit; notifying with a permit already stored changes nothing). -/
def notify_one (_s : NotifyState) : NotifyState :=
  ⟨true⟩

/-- The sources that invoke the shutdown trigger in the source: the public
`Bridge::shutdown` method (bridge.rs line 179), the read-channel on_close
handler (line 163) and the read-channel on_error handler (line 172). -/
inductive ShutdownSource
  | explicitStop
  | readChannelClose
  | readChannelError
  deriving Repr, DecidableEq

/-- Every shutdown source executes `self.shutdown.notify_one()` on the same
`Notify`. -/
def triggerShutdown (_src : ShutdownSource) (s : NotifyState) : NotifyState :=
  notify_one s

/-- A sequence of shutdown-trigger invocations, from any mix of sources,
applied in order to the signal state. -/
def triggerAll : List ShutdownSource → NotifyState → NotifyState
  | [], s => s
  | src :: rest, s => triggerAll rest (triggerShutdown src s)

/-- Whether `Bridge::start` can return after the forwarding task has exited
with result `r`: `start` awaits `self.shutdown.notified()`, which completes
only if a permit was stored, either by an external trigger (state `s`) or by
the loop itself. -/
def start_returns_after_loop_exit (r : LoopResult) (s : NotifyState) : Bool :=
  s.permit || r.notifiedShutdown

/-- One action of the read-channel `on_message` handler installed by
`setup_webrtc_to_udp` (bridge.rs lines 135-156): the message bytes passed,
unmodified, to exactly one `udp_socket.send` call, whose outcome is given by
the oracle; a failure is only logged, and the handler contains no shutdown
notify. -/
structure InboundAction where
  udpSent : List Nat
  sendOk : Bool
  notifiedShutdown : Bool
  deriving Repr, DecidableEq

/-- The read-channel `on_message` handler applied to one inbound message. -/
def on_message_handler (udpSendOk : List Nat → Bool) (msg : List Nat) : InboundAction :=
  ⟨msg, udpSendOk msg, false⟩

/-- The actions performed for a sequence of messages delivered on the read
channel: the `on_message` callback runs once per message, in delivery order,
independently of the outcome of earlier sends. -/
def setup_webrtc_to_udp (udpSendOk : List Nat → Bool) (msgs : List (List Nat)) :
    List InboundAction :=
  msgs.map (on_message_handler udpSendOk)

/-! ## signaling.rs : the channel-ready gate -/

/-- Role tag of the data channel whose on_open callback fired. -/
inductive ChannelRole
  | write
  | read
  deriving Repr, DecidableEq

/-- One invocation of the `start_bridge` closure (signaling.rs lines 92-124)
on the shared atomic counter: `channels_open.fetch_add(1, SeqCst) + 1` is the
observed post-increment value, and the Bridge is created iff that value
equals 2. Returns the updated counter, the observed value and the creation
decision. -/
def start_bridge (count : Nat) : Nat × Nat × Bool :=
  (count + 1, count + 1, count + 1 == 2)

/-- Record of one gate invocation: which channel fired, the post-increment
counter value it observed, and whether it created the Bridge. -/
structure GateInvocation where
  channel : ChannelRole
  observed : Nat
  created : Bool
  deriving Repr, DecidableEq

/-- Run the gate for a sequence of channel-open events. The counter is atomic,
so any concurrent execution of the fetch-and-add operations is equivalent to
some total order of them, which the list argument fixes. -/
def runGate (count : Nat) : List ChannelRole → List GateInvocation
  | [] => []
  | ch :: rest =>
    let s := start_bridge count
    ⟨ch, s.2.1, s.2.2⟩ :: runGate s.1 rest

/-! ## signaling.rs : the websocket message loop -/

/-- A JSON value, as seen by the serde layer of signaling.rs. -/
inductive Json
  | null
  | bool (b : Bool)
  | num (n : Int)
  | str (s : String)
  | arr (items : List Json)
  | obj (fields : List (String × Json))
  deriving Repr, Inhabited

/-- Model of serde_json `Value::get` with a string key: field lookup on an
object, none on every other kind of value. -/
def Json.getField (j : Json) (key : String) : Option Json :=
  match j with
  | .obj fields => fields.lookup key
  | _ => none

/-- Model of serde_json `Value::as_str`. -/
def Json.asStr : Json → Option String
  | .str s => some s
  | _ => none

/-- The `SignalMessage` struct of signaling.rs (lines 26-30): an `event`
string and an arbitrary JSON `data` payload. -/
structure SignalMessage where
  event : String
  data : Json
  deriving Repr

/-- Model of serde deserialization of `SignalMessage` from a JSON value: the
value must be an object carrying an `event` field holding a string and a
`data` field holding any JSON value; anything else is a deserialization
error. -/
def signalMessage_fromJson (j : Json) : Option SignalMessage :=
  match j.getField "event", j.getField "data" with
  | some (.str e), some d => some ⟨e, d⟩
  | _, _ => none

/-- The `RTCIceCandidateInit` struct of the webrtc library, deserialized by
the candidate branch of `handle_ws_messages`: a required `candidate` string
and three optional fields. -/
structure RTCIceCandidateInit where
  candidate : String
  sdpMid : Option String
  sdpMlineIndex : Option Nat
  usernameFragment : Option String
  deriving Repr, DecidableEq

/-- Model of serde extraction of an optional string field: absent or null
yields none, a string yields some, any other value is a deserialization
error. -/
def parseOptStrField (j : Json) (key : String) : Option (Option String) :=
  match j.getField key with
  | none => some none
  | some .null => some none
  | some (.str s) => some (some s)
  | some _ => none

/-- Model of serde extraction of an optional u16 field. -/
def parseOptU16Field (j : Json) (key : String) : Option (Option Nat) :=
  match j.getField key with
  | none => some none
  | some .null => some none
  | some (.num n) => if 0 ≤ n ∧ n < 65536 then some (some n.toNat) else none
  | some _ => none

/-- Model of serde deserialization of `RTCIceCandidateInit` (camelCase field
names on the wire): fails unless the payload is an object whose `candidate`
field is a string and whose optional fields, when present, have the right
types. -/
def rtcIceCandidateInit_fromJson (j : Json) : Option RTCIceCandidateInit :=
  match j.getField "candidate" with
  | some (.str c) =>
    match parseOptStrField j "sdpMid", parseOptU16Field j "sdpMLineIndex",
          parseOptStrField j "usernameFragment" with
    | some m, some i, some u => some ⟨c, m, i, u⟩
    | _, _, _ => none
  | _ => none

/-- Results of the external webrtc-library calls made by the message loop,
abstracted as oracles: `parseAnswerSdp` models the SDP unmarshalling inside
`RTCSessionDescription::answer` (a Result, unwrapped at signaling.rs line
311, so failure there is a panic), `setRemoteOk` the outcome of
`peer.set_remote_description` for a given SDP text, and `addCandidateOk` the
outcome of `peer.add_ice_candidate` for a parsed candidate. -/
structure PeerOracle where
  parseAnswerSdp : String → Option Unit
  setRemoteOk : String → Bool
  addCandidateOk : RTCIceCandidateInit → Bool

/-- One item delivered by the websocket stream to `handle_ws_messages`. A
`text` frame carries the serde_json parse of its contents, none when the
contents are not valid JSON. `otherFrame` covers the binary and pong frames
matched by the final `Ok(_)` arm. -/
inductive WsEvent
  | text (parsed : Option Json)
  | close
  | ping
  | otherFrame
  | wsErr
  deriving Repr

/-- Call against the peer connection performed while handling one message,
with the outcome the library reported (a failed call is logged only). -/
inductive SignalAction
  | setRemote (sdp : String) (ok : Bool)
  | addCandidate (c : RTCIceCandidateInit) (ok : Bool)
  deriving Repr, DecidableEq

/-- Control outcome of one loop iteration of `handle_ws_messages`. -/
inductive StepOutcome
  | next
  | stopClose
  | stopError
  | panicked
  deriving Repr, DecidableEq

/-- One iteration of the `while let` loop of `handle_ws_messages`
(signaling.rs lines 291-352) on one delivered item: the peer-connection
calls made and whether the loop continues, breaks, or panics. Parse failures
of the signal message or of a candidate payload are logged and skipped with
`continue`; an unknown event is logged and skipped; set-remote and
add-candidate failures are logged and the loop continues; the answer branch
calls `RTCSessionDescription::answer(sdp.to_string()).unwrap()`, which
panics when the SDP text does not unmarshal. The SDP text is
`signal.data.get("sdp").and_then(as_str).unwrap_or("")`. -/
def handle_ws_message (o : PeerOracle) : WsEvent → StepOutcome × List SignalAction
  | .text none => (.next, [])
  | .text (some j) =>
    match signalMessage_fromJson j with
    | none => (.next, [])
    | some sig =>
      if sig.event = "answer" then
        let sdp := ((sig.data.getField "sdp").bind Json.asStr).getD ""
        match o.parseAnswerSdp sdp with
        | none => (.panicked, [])
        | some _ => (.next, [.setRemote sdp (o.setRemoteOk sdp)])
      else if sig.event = "candidate" then
        match rtcIceCandidateInit_fromJson sig.data with
        | none => (.next, [])
        | some c => (.next, [.addCandidate c (o.addCandidateOk c)])
      else
        (.next, [])
  | .close => (.stopClose, [])
  | .ping => (.next, [])
  | .otherFrame => (.next, [])
  | .wsErr => (.stopError, [])

/-- How the message loop ended. -/
inductive WsLoopEnd
  | streamEnded
  | closeFrame
  | wsFailure
  | panicked
  deriving Repr, DecidableEq

/-- The loop of `handle_ws_messages` over a sequence of delivered items:
accumulates the peer-connection calls in order and reports how the loop
ended. A panic aborts the loop at the offending message. -/
def handle_ws_messages (o : PeerOracle) : List WsEvent → List SignalAction × WsLoopEnd
  | [] => ([], .streamEnded)
  | e :: rest =>
    match handle_ws_message o e with
    | (.next, acts) =>
      let r := handle_ws_messages o rest
      (acts ++ r.1, r.2)
    | (.stopClose, acts) => (acts, .closeFrame)
    | (.stopError, acts) => (acts, .wsFailure)
    | (.panicked, acts) => (acts, .panicked)

/-! ## signaling.rs : the shared bridge slot and handler control flow -/

/-- Operations on the mutex-guarded `Arc<Mutex<Option<Arc<Bridge>>>>` slot of
`handle_websocket`: the gate installs the created Bridge (line 113); the
connection-state monitor, on Failed, Disconnected or Closed, runs
`bridge.lock().await.take()` and shuts the taken Bridge down (lines
230-232); the end-of-handler cleanup does the same (lines 278-280). The
mutex serializes these, so any execution is a total order of operations. -/
inductive SlotOp
  | installBridge
  | stateChangeTake
  | cleanupTake
  deriving Repr, DecidableEq

/-- Run a sequence of slot operations: returns the final slot content and the
number of `Bridge::shutdown` calls performed. A take on an occupied slot
empties it and shuts down the taken Bridge; a take on an empty slot does
nothing. -/
def runSlot (slot : Option Unit) : List SlotOp → Option Unit × Nat
  | [] => (slot, 0)
  | op :: rest =>
    match op with
    | .installBridge => runSlot (some ()) rest
    | .stateChangeTake | .cleanupTake =>
      match slot with
      | some _ =>
        let r := runSlot none rest
        (r.1, r.2 + 1)
      | none => runSlot none rest

/-- Outcomes of the fallible setup steps of `handle_websocket` (signaling.rs
lines 41-270), in program order: peer-connection creation, the two
data-channel creations, `create_offer`, `set_local_description`, and the
websocket send of the offer message. -/
structure PeerSetupResults where
  createPeerOk : Bool
  createWriteChannelOk : Bool
  createReadChannelOk : Bool
  createOfferOk : Bool
  setLocalDescriptionOk : Bool
  sendOfferOk : Bool
  deriving Repr, DecidableEq

/-- What a run of `handle_websocket` got to before returning: whether the
offer message send was reached, and whether the message loop
(`handle_ws_messages`) was entered. Each failed setup step logs and returns
immediately, in the order the source checks them. -/
structure SessionTrace where
  offerSent : Bool
  wsLoopEntered : Bool
  deriving Repr, DecidableEq

/-- Control flow of `handle_websocket` through its fallible setup steps: any
failure before the offer send returns with no offer sent; a failed offer
send returns before entering the message loop. -/
def handle_websocket_trace (r : PeerSetupResults) : SessionTrace :=
  if !r.createPeerOk then ⟨false, false⟩
  else if !r.createWriteChannelOk then ⟨false, false⟩
  else if !r.createReadChannelOk then ⟨false, false⟩
  else if !r.createOfferOk then ⟨false, false⟩
  else if !r.setLocalDescriptionOk then ⟨false, false⟩
  else if !r.sendOfferOk then ⟨true, false⟩
  else ⟨true, true⟩

/-- A concrete incoming answer message whose data payload carries no sdp
field, so the extracted SDP text defaults to the empty string. On the wire it
is the JSON object with event "answer" and data an object holding only a
type field. -/
def answerNoSdpMsg : Json :=
  Json.obj [("event", Json.str "answer"), ("data", Json.obj [("type", Json.str "answer")])]

/-- A concrete oracle for the external webrtc calls: SDP unmarshalling
rejects exactly the empty string (the library parser requires at least a
version line), and the remaining calls succeed. -/
def rejectEmptySdp : PeerOracle where
  parseAnswerSdp := fun s => if s = "" then none else some ()
  setRemoteOk := fun _ => true
  addCandidateOk := fun _ => true

/-- Classifier for the inputs named by the non-fatal-drop claim: a text frame
that does not deserialize as a signal message, one whose event is neither
answer nor candidate, or a candidate whose payload fails to parse or whose
registration the library refuses. -/
def droppedNonFatal (o : PeerOracle) : WsEvent → Bool
  | .text none => true
  | .text (some j) =>
    match signalMessage_fromJson j with
    | none => true
    | some sig =>
      if sig.event = "answer" then false
      else if sig.event = "candidate" then
        match rtcIceCandidateInit_fromJson sig.data with
        | none => true
        | some c => !o.addCandidateOk c
      else true
  | _ => false

/-! ## Helper lemmas -/

/-- A datagram no larger than the receive buffer is delivered unmodified. -/
theorem udpRecv_eq_of_le {d : List Nat} (h : d.length ≤ MAX_PACKET_SIZE) :
    udpRecv d = d := by
  simp [udpRecv, List.take_of_length_le h]

/-- Prepending a block of successfully handled receive events to a trace
prepends the corresponding nonempty truncated datagrams to the sent list and
leaves the rest of the run unchanged. -/
theorem forward_datagrams_append (ds : List (List Nat)) (rest : List BridgeEvent) :
    forward_udp_to_webrtc (ds.map (fun d => BridgeEvent.recvOk d true) ++ rest) =
      ⟨((ds.map udpRecv).filter fun d => decide (0 < d.length)) ++
          (forward_udp_to_webrtc rest).sent,
        (forward_udp_to_webrtc rest).exit,
        (forward_udp_to_webrtc rest).notifiedShutdown⟩ := by
  induction ds with
  | nil => simp [forward_udp_to_webrtc]
  | cons d ds ih =>
    by_cases h : 0 < (udpRecv d).length
    · simp [forward_udp_to_webrtc, h, ih, List.filter_cons]
    · simp [forward_udp_to_webrtc, h, ih, List.filter_cons]

/-- A trace consisting only of in-range datagrams delivers them unmodified. -/
theorem map_udpRecv_eq_self {ds : List (List Nat)}
    (h : ∀ d ∈ ds, d.length ≤ MAX_PACKET_SIZE) : ds.map udpRecv = ds := by
  induction ds with
  | nil => rfl
  | cons d ds ih =>
    simp only [List.map_cons, udpRecv_eq_of_le (h d (by simp)), List.cons.injEq]
    exact ⟨trivial, ih fun x hx => h x (by simp [hx])⟩

/-- Every message the loop sends has length bounded by the buffer size. -/
theorem forward_sent_length_le (evs : List BridgeEvent) :
    ∀ m ∈ (forward_udp_to_webrtc evs).sent, m.length ≤ MAX_PACKET_SIZE := by
  induction evs with
  | nil => simp [forward_udp_to_webrtc]
  | cons e rest ih =>
    match e with
    | .recvOk d sendOk =>
      by_cases h : 0 < (udpRecv d).length
      · cases sendOk with
        | true =>
          intro m hm
          simp only [forward_udp_to_webrtc, h, if_pos, if_true] at hm
          rcases List.mem_cons.mp hm with rfl | hm
          · simp [udpRecv, MAX_PACKET_SIZE]
          · exact ih m hm
        | false => intro m hm; simp [forward_udp_to_webrtc, h] at hm
      · intro m hm
        simp only [forward_udp_to_webrtc, h, if_neg, if_false] at hm
        exact ih m hm
    | .recvErr => intro m hm; simp [forward_udp_to_webrtc] at hm
    | .shutdown => intro m hm; simp [forward_udp_to_webrtc] at hm

/-- On a successfully received and forwarded nonempty datagram, the loop
records the truncated datagram and continues on the rest of the trace. -/
theorem forward_cons_recvOk_true (d : List Nat) (rest : List BridgeEvent)
    (hpos : 0 < (udpRecv d).length) :
    forward_udp_to_webrtc (BridgeEvent.recvOk d true :: rest) =
      ⟨udpRecv d :: (forward_udp_to_webrtc rest).sent,
        (forward_udp_to_webrtc rest).exit,
        (forward_udp_to_webrtc rest).notifiedShutdown⟩ := by
  simp [forward_udp_to_webrtc, hpos]

/-- Once a permit is stored, further triggers change nothing. -/
theorem triggerAll_saturated : ∀ srcs : List ShutdownSource, triggerAll srcs ⟨true⟩ = ⟨true⟩
  | [] => rfl
  | _ :: rest => triggerAll_saturated rest

/-! ## Claim theorems -/

/-- C1: for the two channel-open events in either order (an atomic
fetch-and-add serializes concurrent invocations into one of these orders),
the gate creates the Bridge exactly once, namely in the invocation observing
post-increment value 2, and an invocation creates the Bridge iff it observes
exactly 2. -/
theorem gate_creates_bridge_exactly_once (a b : ChannelRole) :
    ((runGate 0 [a, b]).filter fun inv => inv.created).length = 1 ∧
    ∀ inv ∈ runGate 0 [a, b], (inv.created = true ↔ inv.observed = 2) := by
  cases a <;> cases b <;> decide

/-- C1 witness: both events with the write channel first. -/
theorem gate_creates_bridge_exactly_once_witness :
    ((runGate 0 [ChannelRole.write, ChannelRole.read]).filter fun inv => inv.created).length = 1 ∧
    ∀ inv ∈ runGate 0 [ChannelRole.write, ChannelRole.read],
      (inv.created = true ↔ inv.observed = 2) :=
  gate_creates_bridge_exactly_once ChannelRole.write ChannelRole.read

/-- C3 counterexample: on a UDP receive error the loop exits, but the code
contains no notify call on this path, so the shutdown signal does not fire
and `Bridge::start`, which awaits that signal, cannot return: the claimed
overall shutdown does not happen. -/
theorem udp_error_shutdown_not_triggered_cex :
    (forward_udp_to_webrtc [BridgeEvent.recvErr]).exit = ExitReason.recvError ∧
    ¬ (forward_udp_to_webrtc [BridgeEvent.recvErr]).notifiedShutdown = true ∧
    ¬ start_returns_after_loop_exit (forward_udp_to_webrtc [BridgeEvent.recvErr]) ⟨false⟩
        = true := by
  decide

/-- C3 amended: a UDP receive error, or a write-channel send failure on a
nonempty datagram, terminates the UDP-to-outbound loop, but fires no
shutdown signal, so without an external trigger the bridge start operation
does not complete and the inbound direction is not stopped. -/
theorem bridge_fatal_errors_stop_loop_without_shutdown (d : List Nat)
    (rest : List BridgeEvent) (h : 0 < d.length) :
    forward_udp_to_webrtc (BridgeEvent.recvErr :: rest) = ⟨[], ExitReason.recvError, false⟩ ∧
    forward_udp_to_webrtc (BridgeEvent.recvOk d false :: rest)
      = ⟨[], ExitReason.sendError, false⟩ ∧
    start_returns_after_loop_exit (forward_udp_to_webrtc (BridgeEvent.recvErr :: rest)) ⟨false⟩
      = false := by
  have hpos : 0 < (udpRecv d).length := by
    simp only [udpRecv, List.length_take, MAX_PACKET_SIZE]
    omega
  exact ⟨rfl, by simp [forward_udp_to_webrtc, hpos], rfl⟩

/-- C3 amended witness: a one-byte datagram with a failing send, and a recv
error. -/
theorem bridge_fatal_errors_stop_loop_without_shutdown_witness :
    forward_udp_to_webrtc (BridgeEvent.recvErr :: []) = ⟨[], ExitReason.recvError, false⟩ ∧
    forward_udp_to_webrtc (BridgeEvent.recvOk [1] false :: [])
      = ⟨[], ExitReason.sendError, false⟩ ∧
    start_returns_after_loop_exit (forward_udp_to_webrtc (BridgeEvent.recvErr :: [])) ⟨false⟩
      = false :=
  bridge_fatal_errors_stop_loop_without_shutdown [1] [] (by decide)

/-- C4: over a run in which the socket delivers a sequence of datagrams (each
within the buffer bound) and every channel send succeeds, the loop produces
exactly one outbound message per nonempty datagram, holding exactly its
bytes, in arrival order; zero-length datagrams produce nothing and do not
terminate the loop, which is still running afterwards. -/
theorem datagram_boundary_preservation (ds : List (List Nat))
    (h : ∀ d ∈ ds, d.length ≤ MAX_PACKET_SIZE) :
    forward_udp_to_webrtc (ds.map fun d => BridgeEvent.recvOk d true) =
      ⟨ds.filter fun d => decide (0 < d.length), ExitReason.stillRunning, false⟩ := by
  have h2 := forward_datagrams_append ds []
  rw [map_udpRecv_eq_self h] at h2
  simpa [forward_udp_to_webrtc] using h2

set_option maxRecDepth 10000 in
/-- C4 witness: datagrams of 10, 0 and 200 bytes yield exactly two messages,
10 bytes then 200 bytes. -/
theorem datagram_boundary_preservation_witness :
    forward_udp_to_webrtc
        ([List.replicate 10 1, [], List.replicate 200 2].map fun d =>
          BridgeEvent.recvOk d true) =
      ⟨[List.replicate 10 1, List.replicate 200 2], ExitReason.stillRunning, false⟩ := by
  rw [datagram_boundary_preservation]
  · decide
  · decide

/-- C5: triggering the shutdown signal any number of times, from any mix of
sources, leaves the signal in the same state as a single trigger (the permit
store saturates), and the forwarding loop stops at its first observation of
the signal: whatever redundant events follow that observation, the run of
the loop is unchanged, so it stops exactly once and nothing fails. -/
theorem shutdown_idempotent (srcs : List ShutdownSource) (s : NotifyState)
    (ds : List (List Nat)) (junk : List BridgeEvent) (h : srcs ≠ []) :
    triggerAll srcs s = notify_one s ∧
    (triggerAll srcs s).permit = true ∧
    forward_udp_to_webrtc
        (ds.map (fun d => BridgeEvent.recvOk d true) ++ BridgeEvent.shutdown :: junk) =
      forward_udp_to_webrtc
        (ds.map (fun d => BridgeEvent.recvOk d true) ++ [BridgeEvent.shutdown]) := by
  have h1 : triggerAll srcs s = notify_one s := by
    cases srcs with
    | nil => exact absurd rfl h
    | cons x rest => simp [triggerAll, triggerShutdown, notify_one, triggerAll_saturated]
  refine ⟨h1, by rw [h1]; rfl, ?_⟩
  rw [forward_datagrams_append, forward_datagrams_append]
  rfl

/-- C5 witness: two triggers from different sources and a redundant event
after the shutdown observation. -/
theorem shutdown_idempotent_witness :
    triggerAll [ShutdownSource.explicitStop, ShutdownSource.readChannelClose] ⟨false⟩
      = notify_one ⟨false⟩ ∧
    (triggerAll [ShutdownSource.explicitStop, ShutdownSource.readChannelClose] ⟨false⟩).permit
      = true ∧
    forward_udp_to_webrtc
        ([[5]].map (fun d => BridgeEvent.recvOk d true)
          ++ BridgeEvent.shutdown :: [BridgeEvent.recvErr]) =
      forward_udp_to_webrtc
        ([[5]].map (fun d => BridgeEvent.recvOk d true) ++ [BridgeEvent.shutdown]) :=
  shutdown_idempotent _ _ [[5]] [BridgeEvent.recvErr] (by decide)

/-- C10: every message the loop writes to the outbound channel is at most
`MAX_PACKET_SIZE` bytes, and a larger datagram is truncated by the
fixed-size receive buffer to exactly its first `MAX_PACKET_SIZE` bytes
before being forwarded. -/
theorem outbound_message_size_bounded :
    (∀ evs, ∀ m ∈ (forward_udp_to_webrtc evs).sent, m.length ≤ MAX_PACKET_SIZE) ∧
    (∀ (d : List Nat) (rest : List BridgeEvent), MAX_PACKET_SIZE < d.length →
      (forward_udp_to_webrtc (BridgeEvent.recvOk d true :: rest)).sent.head? =
        some (d.take MAX_PACKET_SIZE)) := by
  refine ⟨forward_sent_length_le, ?_⟩
  intro d rest h
  have hpos : 0 < (udpRecv d).length := by
    simp only [udpRecv, List.length_take, MAX_PACKET_SIZE]
    omega
  rw [forward_cons_recvOk_true d rest hpos]
  simp [udpRecv]

/-- C10 witness: a 70000-byte datagram is forwarded as its first 65536
bytes. -/
theorem outbound_message_size_bounded_witness :
    MAX_PACKET_SIZE < (List.replicate 70000 1).length ∧
    (forward_udp_to_webrtc [BridgeEvent.recvOk (List.replicate 70000 1) true]).sent.head? =
      some ((List.replicate 70000 1).take MAX_PACKET_SIZE) :=
  ⟨by norm_num [MAX_PACKET_SIZE],
    outbound_message_size_bounded.2 _ [] (by norm_num [MAX_PACKET_SIZE])⟩

/-- Pairing the actions of the inbound forwarder with the messages that
caused them: each action is the handler applied to its message. -/
theorem setup_zip_spec (f : List Nat → Bool) :
    ∀ (msgs : List (List Nat)) (p : InboundAction × List Nat),
      p ∈ (setup_webrtc_to_udp f msgs).zip msgs → p.1 = on_message_handler f p.2 := by
  intro msgs
  induction msgs with
  | nil =>
    intro p hp
    simp [setup_webrtc_to_udp] at hp
  | cons m ms ih =>
    intro p hp
    simp only [setup_webrtc_to_udp, List.map_cons, List.zip_cons_cons, List.mem_cons] at hp
    rcases hp with rfl | hp
    · rfl
    · exact ih p (by simpa [setup_webrtc_to_udp] using hp)

/-- A run of the slot with no install performs no shutdown and leaves the
slot empty. -/
theorem runSlot_no_install : ∀ (ops : List SlotOp), SlotOp.installBridge ∉ ops →
    runSlot none ops = (none, 0)
  | [], _ => rfl
  | op :: rest, h => by
    have hr : SlotOp.installBridge ∉ rest := fun hm => h (List.mem_cons_of_mem _ hm)
    cases op with
    | installBridge => exact absurd (List.mem_cons_self _ _) h
    | stateChangeTake => simp [runSlot, runSlot_no_install rest hr]
    | cleanupTake => simp [runSlot, runSlot_no_install rest hr]

/-- From an occupied slot, a nonempty install-free run of teardown operations
shuts the Bridge down exactly once and empties the slot. -/
theorem runSlot_occupied_teardown : ∀ (ops : List SlotOp),
    SlotOp.installBridge ∉ ops → ops ≠ [] → runSlot (some ()) ops = (none, 1)
  | [], _, hne => absurd rfl hne
  | op :: rest, h, _ => by
    have hr : SlotOp.installBridge ∉ rest := fun hm => h (List.mem_cons_of_mem _ hm)
    cases op with
    | installBridge => exact absurd (List.mem_cons_self _ _) h
    | stateChangeTake => simp [runSlot, runSlot_no_install rest hr]
    | cleanupTake => simp [runSlot, runSlot_no_install rest hr]

/-- Run of the slot over an appended operation sequence. -/
theorem runSlot_append : ∀ (a b : List SlotOp) (slot : Option Unit),
    runSlot slot (a ++ b) =
      ((runSlot (runSlot slot a).1 b).1,
        (runSlot slot a).2 + (runSlot (runSlot slot a).1 b).2)
  | [], b, slot => by simp [runSlot]
  | op :: rest, b, slot => by
    cases op with
    | installBridge =>
      simpa [runSlot] using runSlot_append rest b (some ())
    | stateChangeTake =>
      cases slot with
      | none => simpa [runSlot] using runSlot_append rest b none
      | some u =>
        have ih := runSlot_append rest b none
        simp only [List.cons_append, runSlot, List.append_eq, ih, Prod.mk.injEq]
        exact ⟨trivial, by omega⟩
    | cleanupTake =>
      cases slot with
      | none => simpa [runSlot] using runSlot_append rest b none
      | some u =>
        have ih := runSlot_append rest b none
        simp only [List.cons_append, runSlot, List.append_eq, ih, Prod.mk.injEq]
        exact ⟨trivial, by omega⟩

/-- A run with exactly one install: if any teardown operation follows the
install, the Bridge is shut down exactly once; otherwise it stays installed
and no shutdown happens. -/
theorem runSlot_single_install : ∀ (pre post : List SlotOp),
    SlotOp.installBridge ∉ pre → SlotOp.installBridge ∉ post →
    runSlot none (pre ++ SlotOp.installBridge :: post)
      = if post.isEmpty then (some (), 0) else (none, 1)
  | [], [], _, _ => rfl
  | [], p :: ps, _, h2 => runSlot_occupied_teardown (p :: ps) h2 (List.cons_ne_nil p ps)
  | op :: rest, post, h1, h2 => by
    have hr : SlotOp.installBridge ∉ rest := fun hm => h1 (List.mem_cons_of_mem _ hm)
    cases op with
    | installBridge => exact absurd (List.mem_cons_self _ _) h1
    | stateChangeTake => exact runSlot_single_install rest post hr h2
    | cleanupTake => exact runSlot_single_install rest post hr h2

/-- C6: for every message arriving on the inbound (read) channel, exactly one
UDP send is attempted, carrying exactly the message bytes as one datagram;
the handler never fires the shutdown signal, so a failed send leaves the
bridge running and every subsequent message is still forwarded. -/
theorem inbound_message_forwarding (f : List Nat → Bool) (msgs : List (List Nat)) :
    (setup_webrtc_to_udp f msgs).length = msgs.length ∧
    ∀ p ∈ (setup_webrtc_to_udp f msgs).zip msgs,
      p.1.udpSent = p.2 ∧ p.1.sendOk = f p.2 ∧ p.1.notifiedShutdown = false := by
  refine ⟨by simp [setup_webrtc_to_udp], ?_⟩
  intro p hp
  rw [setup_zip_spec f msgs p hp]
  exact ⟨rfl, rfl, rfl⟩

/-- C6 witness: two messages with every UDP send failing are both forwarded,
and neither shuts the bridge down. -/
theorem inbound_message_forwarding_witness :
    (setup_webrtc_to_udp (fun _ => false) [[1, 2], [3]]).length
      = ([[1, 2], [3]] : List (List Nat)).length ∧
    ∀ p ∈ (setup_webrtc_to_udp (fun _ => false) [[1, 2], [3]]).zip [[1, 2], [3]],
      p.1.udpSent = p.2 ∧ p.1.sendOk = (fun _ => false) p.2 ∧
        p.1.notifiedShutdown = false :=
  inbound_message_forwarding (fun _ => false) [[1, 2], [3]]

/-- C7: with the single install the gate can perform, any interleaving of the
two teardown paths (the connection-state monitor, which may fire repeatedly,
and the end-of-handler cleanup) shuts an installed Bridge down exactly once,
because both paths take from the same mutex-guarded slot; with no install,
no shutdown happens and the run still completes; and one install can never
produce two shutdowns. -/
theorem bridge_shutdown_exactly_once_on_exit (pre post : List SlotOp)
    (h1 : SlotOp.installBridge ∉ pre) (h2 : SlotOp.installBridge ∉ post)
    (h3 : post ≠ []) :
    runSlot none (pre ++ SlotOp.installBridge :: post) = (none, 1) ∧
    runSlot none (pre ++ post) = (none, 0) ∧
    ∀ pre2 post2, SlotOp.installBridge ∉ pre2 → SlotOp.installBridge ∉ post2 →
      (runSlot none (pre2 ++ SlotOp.installBridge :: post2)).2 ≤ 1 := by
  refine ⟨?_, ?_, ?_⟩
  · rw [runSlot_single_install pre post h1 h2]
    cases post with
    | nil => exact absurd rfl h3
    | cons p ps => rfl
  · exact runSlot_no_install (pre ++ post) fun hm =>
      (List.mem_append.mp hm).elim (fun hp => h1 hp) fun hp => h2 hp
  · intro pre2 post2 g1 g2
    rw [runSlot_single_install pre2 post2 g1 g2]
    cases post2 <;> simp

/-- C7 witness: the state-change monitor fires before the install and twice
after it (together with the final cleanup): one shutdown exactly. -/
theorem bridge_shutdown_exactly_once_on_exit_witness :
    runSlot none ([SlotOp.stateChangeTake]
        ++ SlotOp.installBridge :: [SlotOp.stateChangeTake, SlotOp.cleanupTake])
      = (none, 1) ∧
    runSlot none ([SlotOp.stateChangeTake] ++ [SlotOp.stateChangeTake, SlotOp.cleanupTake])
      = (none, 0) ∧
    ∀ pre2 post2, SlotOp.installBridge ∉ pre2 → SlotOp.installBridge ∉ post2 →
      (runSlot none (pre2 ++ SlotOp.installBridge :: post2)).2 ≤ 1 :=
  bridge_shutdown_exactly_once_on_exit _ _ (by decide) (by decide) (by decide)

/-- C8: when offer creation or local-description registration fails, the
handler returns before the offer send and before the message loop, so no
offer message is sent; and since the channels of a session whose offer was
never sent never open (the remote peer never receives a description to
answer), the gate counter never moves and no Bridge is ever created. -/
theorem offer_failure_is_session_fatal (r : PeerSetupResults) (opens : List ChannelRole)
    (hfail : r.createOfferOk = false ∨ r.setLocalDescriptionOk = false)
    (hopens : (handle_websocket_trace r).offerSent = false → opens = []) :
    (handle_websocket_trace r).offerSent = false ∧
    (handle_websocket_trace r).wsLoopEntered = false ∧
    ((runGate 0 opens).filter fun inv => inv.created).length = 0 := by
  have key : ∀ cp cw cr co sl so : Bool, (co = false ∨ sl = false) →
      (handle_websocket_trace ⟨cp, cw, cr, co, sl, so⟩).offerSent = false ∧
      (handle_websocket_trace ⟨cp, cw, cr, co, sl, so⟩).wsLoopEntered = false := by
    decide
  obtain ⟨cp, cw, cr, co, sl, so⟩ := r
  obtain ⟨hoff, hloop⟩ := key cp cw cr co sl so hfail
  refine ⟨hoff, hloop, ?_⟩
  rw [hopens hoff]
  rfl

/-- C8 witness: offer creation fails with everything before it succeeding,
and no channel ever opens. -/
theorem offer_failure_is_session_fatal_witness :
    (handle_websocket_trace ⟨true, true, true, false, true, true⟩).offerSent = false ∧
    (handle_websocket_trace ⟨true, true, true, false, true, true⟩).wsLoopEntered = false ∧
    ((runGate 0 []).filter fun inv => inv.created).length = 0 :=
  offer_failure_is_session_fatal ⟨true, true, true, false, true, true⟩ []
    (Or.inl rfl) (fun _ => rfl)

/-- C2 as the code behaves: on an incoming answer message whose data payload
yields an SDP text that the library parser rejects (the extracted text is
the empty string when the payload has no sdp field), the
`RTCSessionDescription::answer(...).unwrap()` at signaling.rs line 311
panics, aborting the message loop instead of logging and continuing. -/
theorem answer_unwrap_panics_on_malformed_sdp (o : PeerOracle)
    (h : o.parseAnswerSdp "" = none) :
    handle_ws_message o (WsEvent.text (some answerNoSdpMsg))
      = (StepOutcome.panicked, []) ∧
    handle_ws_messages o [WsEvent.text (some answerNoSdpMsg)] = ([], WsLoopEnd.panicked) := by
  have h1 : handle_ws_message o (WsEvent.text (some answerNoSdpMsg))
      = (match o.parseAnswerSdp "" with
          | none => (StepOutcome.panicked, [])
          | some _ =>
            (StepOutcome.next, [SignalAction.setRemote "" (o.setRemoteOk "")])) := rfl
  rw [h] at h1
  exact ⟨h1, by simp [handle_ws_messages, h1]⟩

/-- C2 witness: the oracle that rejects exactly the empty SDP string. -/
theorem answer_unwrap_panics_on_malformed_sdp_witness :
    handle_ws_message rejectEmptySdp (WsEvent.text (some answerNoSdpMsg))
      = (StepOutcome.panicked, []) ∧
    handle_ws_messages rejectEmptySdp [WsEvent.text (some answerNoSdpMsg)]
      = ([], WsLoopEnd.panicked) :=
  answer_unwrap_panics_on_malformed_sdp rejectEmptySdp rfl

/-- C9: a text frame that is not valid signal-message JSON, or whose event is
unknown, or whose candidate payload cannot be parsed or is refused by the
library, makes the iteration log and continue: the loop neither terminates
nor panics on it, its remaining behavior is exactly that on the rest of the
stream, and only the recorded (non-fatal) candidate attempt, if any, is
added to the action log. -/
theorem malformed_signal_dropped_loop_continues (o : PeerOracle) (e : WsEvent)
    (rest : List WsEvent) (h : droppedNonFatal o e = true) :
    (handle_ws_message o e).1 = StepOutcome.next ∧
    (handle_ws_messages o (e :: rest)).2 = (handle_ws_messages o rest).2 ∧
    (handle_ws_messages o (e :: rest)).1
      = (handle_ws_message o e).2 ++ (handle_ws_messages o rest).1 := by
  have hstep : (handle_ws_message o e).1 = StepOutcome.next := by
    cases e with
    | text pj =>
      cases pj with
      | none => rfl
      | some j =>
        cases hs : signalMessage_fromJson j with
        | none => simp [handle_ws_message, hs]
        | some sig =>
          simp only [droppedNonFatal, hs] at h
          by_cases ha : sig.event = "answer"
          · simp [ha] at h
          · by_cases hc : sig.event = "candidate"
            · cases hr : rtcIceCandidateInit_fromJson sig.data with
              | none => simp [handle_ws_message, hs, ha, hc, hr]
              | some c => simp [handle_ws_message, hs, ha, hc, hr]
            · simp [handle_ws_message, hs, ha, hc]
    | close => simp [droppedNonFatal] at h
    | ping => rfl
    | otherFrame => rfl
    | wsErr => simp [droppedNonFatal] at h
  have hpair : handle_ws_message o e = (StepOutcome.next, (handle_ws_message o e).2) := by
    rw [← hstep]
  refine ⟨hstep, ?_, ?_⟩ <;>
    · conv_lhs => rw [handle_ws_messages, hpair]

/-- C9 witness: a text frame holding a JSON string rather than an object,
followed by a clean close. -/
theorem malformed_signal_dropped_loop_continues_witness :
    (handle_ws_message rejectEmptySdp (WsEvent.text (some (Json.str "x")))).1
      = StepOutcome.next ∧
    (handle_ws_messages rejectEmptySdp
        (WsEvent.text (some (Json.str "x")) :: [WsEvent.close])).2
      = (handle_ws_messages rejectEmptySdp [WsEvent.close]).2 ∧
    (handle_ws_messages rejectEmptySdp
        (WsEvent.text (some (Json.str "x")) :: [WsEvent.close])).1
      = (handle_ws_message rejectEmptySdp (WsEvent.text (some (Json.str "x")))).2
        ++ (handle_ws_messages rejectEmptySdp [WsEvent.close]).1 :=
  malformed_signal_dropped_loop_continues rejectEmptySdp _ [WsEvent.close] rfl

end WebxashProxy
